import Mathlib

/-!
Verification development for the zha_quirks thermostat adapter collection.

The Python sources translated here are the Saswell TRV adapter
(trv_saswell.py), the Maxsmart TRV adapter (ts0601_trv_maxsmart.py) and the
Avatto thermostat adapter (ts0601_thermostat_avatto.py).  Python integers and
floats are modelled as exact rationals; Python round is round-half-to-even,
Python int() is truncation toward zero.  Attribute caches are modelled as
total functions into Option; the base Cluster update (which stores the raw
value in the attribute cache before any vendor logic runs) is modelled as a
pointwise function update.  Bus events published via listener_event are
collected into an explicit event list.
-/

/-- Python round: round half to even (bankers rounding), on exact rationals. -/
def pythonRound (q : ℚ) : ℤ :=
  if q - ⌊q⌋ < 1/2 then ⌊q⌋
  else if 1/2 < q - ⌊q⌋ then ⌊q⌋ + 1
  else if ⌊q⌋ % 2 = 0 then ⌊q⌋ else ⌊q⌋ + 1

/-- Python int() applied to a rational: truncation toward zero. -/
def intTrunc (q : ℚ) : ℤ :=
  if 0 ≤ q then ⌊q⌋ else ⌈q⌉

/-- Python round with one decimal digit: round(x, 1). -/
def pythonRound1 (q : ℚ) : ℚ :=
  (pythonRound (q * 10) : ℚ) / 10

theorem pythonRound_intCast (n : ℤ) : pythonRound (n : ℚ) = n := by
  simp [pythonRound]

theorem pythonRound_le (q : ℚ) : (pythonRound q : ℚ) ≤ q + 1/2 := by
  have h1 : ((⌊q⌋ : ℤ) : ℚ) ≤ q := Int.floor_le q
  have h2 : q < (⌊q⌋ : ℚ) + 1 := Int.lt_floor_add_one q
  unfold pythonRound
  split
  · linarith
  · split
    · push_cast
      linarith
    · split <;> push_cast <;> linarith

theorem le_pythonRound (q : ℚ) : q - 1/2 ≤ (pythonRound q : ℚ) := by
  have h1 : ((⌊q⌋ : ℤ) : ℚ) ≤ q := Int.floor_le q
  have h2 : q < (⌊q⌋ : ℚ) + 1 := Int.lt_floor_add_one q
  unfold pythonRound
  split
  · linarith
  · split
    · push_cast
      linarith
    · split <;> push_cast <;> linarith

/-- Argument of a bus event: a number, a string, or a byte list. -/
inductive EvArg where
  | num (q : ℚ)
  | str (s : String)
  | bytes (l : List ℤ)
deriving DecidableEq

/-- One bus event: listener_event(name, args) published on a named bus. -/
structure Evt where
  bus : String
  name : String
  args : List EvArg
deriving DecidableEq

/-- Manufacturer-cluster attribute cache with integer values (Saswell, Avatto). -/
def SCache := ℕ → Option ℤ

/-- Pointwise cache update: models the base Cluster update storing the raw value. -/
def sStore (c : SCache) (attrid : ℕ) (v : ℤ) : SCache :=
  fun i => if i = attrid then some v else c i

/- Saswell manufacturer attribute ids (trv_saswell.py, lines 42-52). -/

def SASWELL_CHILD_LOCK_ATTR : ℕ := 0x0128
def SASWELL_ANTI_FREEZE_ATTR : ℕ := 0x010A
def SASWELL_WINDOW_DETECT_ATTR : ℕ := 0x0108
def SASWELL_LIMESCALE_PROTECT_ATTR : ℕ := 0x0182
def SASWELL_TEMP_CORRECTION_ATTR : ℕ := 0x021B
def SASWELL_ROOM_TEMP_ATTR : ℕ := 0x0266
def SASWELL_AWAY_MODE_ATTR : ℕ := 0x016A
def SASWELL_SCHEDULE_MODE_ATTR : ℕ := 0x016C
def SASWELL_ONOFF_ATTR : ℕ := 0x0165
def SASWELL_TARGET_TEMP_ATTR : ℕ := 0x0267
def SASWELL_BATTERY_ALARM_ATTR : ℕ := 0x569

/-- Saswell forward converter for the two temperature attributes: the lambda
value: value * 10 from SaswellManufCluster.DIRECT_MAPPED_ATTRS. -/
def saswellTimesTen (value : ℤ) : ℤ := value * 10

/-- SaswellManufCluster.DIRECT_MAPPED_ATTRS: manufacturer id to
(standard attribute name, optional forward conversion). -/
def saswellDirectMapped (attrid : ℕ) : Option (String × Option (ℤ → ℤ)) :=
  if attrid = SASWELL_ROOM_TEMP_ATTR then some ("local_temperature", some saswellTimesTen)
  else if attrid = SASWELL_TARGET_TEMP_ATTR then
    some ("occupied_heating_setpoint", some saswellTimesTen)
  else if attrid = SASWELL_TEMP_CORRECTION_ATTR then
    some ("local_temperature_calibration", none)
  else none

/-- SaswellManufCluster._update_attribute (trv_saswell.py, lines 210-259):
stores the raw value, then publishes the direct-mapped temperature_change
event and the special-cased per-feature bus events. -/
def saswellUpdateAttribute (attrid : ℕ) (value : ℤ) (c : SCache) :
    SCache × List Evt :=
  let c2 := sStore c attrid value
  let evs1 : List Evt :=
    match saswellDirectMapped attrid with
    | some (nm, fn) =>
      [⟨"thermostat_bus", "temperature_change",
        [.str nm, .num (((match fn with | none => value | some f => f value) : ℤ) : ℚ)]⟩]
    | none => []
  let evs2 : List Evt :=
    if attrid = SASWELL_ONOFF_ATTR then
      [⟨"thermostat_bus", "on_off_event", [.num (value : ℚ)]⟩]
    else if attrid = SASWELL_SCHEDULE_MODE_ATTR then
      [⟨"thermostat_onoff_bus", "schedule_mode_change", [.num (value : ℚ)]⟩]
    else if attrid = SASWELL_AWAY_MODE_ATTR then
      [⟨"thermostat_onoff_bus", "away_mode_change", [.num (value : ℚ)]⟩]
    else if attrid = SASWELL_CHILD_LOCK_ATTR then
      [⟨"ui_bus", "child_lock_change", [.num (value : ℚ)]⟩,
       ⟨"thermostat_onoff_bus", "child_lock_change", [.num (value : ℚ)]⟩]
    else if attrid = SASWELL_WINDOW_DETECT_ATTR then
      [⟨"thermostat_onoff_bus", "window_detect_change", [.num (value : ℚ)]⟩]
    else if attrid = SASWELL_ANTI_FREEZE_ATTR then
      [⟨"thermostat_onoff_bus", "anti_freeze_change", [.num (value : ℚ)]⟩]
    else if attrid = SASWELL_LIMESCALE_PROTECT_ATTR then
      [⟨"thermostat_onoff_bus", "limescale_protection_change", [.num (value : ℚ)]⟩]
    else if attrid = SASWELL_BATTERY_ALARM_ATTR then
      [⟨"battery_bus", "battery_alarm_event", [.num (value : ℚ)]⟩]
    else if attrid = SASWELL_TEMP_CORRECTION_ATTR then
      [⟨"SaswellTempCalibration_bus", "set_value", [.num (value : ℚ)]⟩]
    else if attrid = SASWELL_ROOM_TEMP_ATTR ∨ attrid = SASWELL_TARGET_TEMP_ATTR then
      [⟨"thermostat_bus", "hass_climate_state_change",
        [.num (attrid : ℚ), .num (value : ℚ)]⟩]
    else []
  (c2, evs1 ++ evs2)

/- Standard Thermostat enumeration values used by the adapters (zigpy
Thermostat cluster): SystemMode Off = 0x00, Heat = 0x04. -/

def systemModeOff : ℤ := 0x00
def systemModeHeat : ℤ := 0x04

/-- SaswellThermostatCluster.map_attribute (trv_saswell.py, lines 422-436):
DIRECT_MAPPING_ATTRS sends local_temperature_calibration through the identity
lambda and occupied_heating_setpoint through round(value / 10); system_mode
maps Off/Heat onto the on-off manufacturer attribute; anything else returns
Python None (here: none). -/
def saswellMapAttribute (attr : String) (value : ℤ) : Option (List (ℕ × ℤ)) :=
  if attr = "local_temperature_calibration" then
    some [(SASWELL_TEMP_CORRECTION_ATTR, value)]
  else if attr = "occupied_heating_setpoint" then
    some [(SASWELL_TARGET_TEMP_ATTR, pythonRound ((value : ℚ) / 10))]
  else if attr = "system_mode" then
    if value = systemModeOff then some [(SASWELL_ONOFF_ATTR, 0)]
    else if value = systemModeHeat then some [(SASWELL_ONOFF_ATTR, 1)]
    else none
  else none

/-- Saswell synthetic Thermostat attribute cache (string-named standard
attributes, integer values). -/
def SThermo := String → Option ℤ

/-- SaswellThermostatCluster.hass_climate_state_change (trv_saswell.py,
lines 466-486).  When system_mode is not cached as Heat it publishes state 0;
otherwise it combines the incoming value with the cached setpoint or cached
local temperature.  A missing cached value makes the Python code evaluate
int(None + 2) or int(None), raising TypeError; that is modelled as
Except.error. -/
def saswellHassClimateStateChange (c : SThermo) (attrid : ℕ) (value : ℤ) :
    Except String (List Evt) :=
  if c "system_mode" ≠ some systemModeHeat then
    .ok [⟨"thermostat_bus", "state_change", [.num 0]⟩]
  else if attrid = SASWELL_ROOM_TEMP_ATTR then
    match c "occupied_heating_setpoint" with
    | none => .error "TypeError: unsupported operand type for NoneType"
    | some tempSet =>
      .ok [⟨"thermostat_bus", "state_change",
            [.num (if value * 10 ≥ tempSet + 2 then 0 else 1)]⟩]
  else
    match c "local_temperature" with
    | none => .error "TypeError: int of NoneType"
    | some tempCurrent =>
      .ok [⟨"thermostat_bus", "state_change",
            [.num (if tempCurrent ≥ value * 10 + 2 then 0 else 1)]⟩]

/-- Modelled from the spec: the bus listener_event machinery that invokes a
listener such as hass_climate_state_change lives in the host framework, not in
this repository.  Per the spec's error-handling design, a listener failure is
a logged error message with no exception propagation and no published events:
the dispatch of a listener outcome therefore yields the events on success and
an empty event list plus a log entry on error. -/
def busDispatchLogged (r : Except String (List Evt)) :
    List Evt × Option String :=
  match r with
  | .ok evs => (evs, none)
  | .error e => ([], some e)

/- CustomTuyaOnOff.write_attributes (trv_saswell.py, lines 69-112; the same
code appears in the Maxsmart and Avatto files). -/

/-- ZCL write status used by the on-off write path. -/
inductive WStatus where
  | success
  | failure
deriving DecidableEq

/-- foundation.WriteAttributesStatusRecord: a status plus the attribute id it
refers to (absent on the blanket success record). -/
structure WStatusRecord where
  status : WStatus
  attrid : Option ℕ
deriving DecidableEq

/-- One attribute write record as produced by _write_attr_records. -/
structure WRecord where
  attrid : ℕ
  value : ℤ
deriving DecidableEq

/-- Python dict.update on an association list: existing keys are overwritten
in place, new keys are appended in order. -/
def dictUpdate (d : List (ℕ × ℤ)) (new : List (ℕ × ℤ)) : List (ℕ × ℤ) :=
  new.foldl
    (fun acc kv =>
      if acc.any (fun p => p.1 = kv.1) then
        acc.map (fun p => if p.1 = kv.1 then kv else p)
      else acc ++ [kv])
    d

/-- CustomTuyaOnOff.write_attributes: an empty record set returns a single
SUCCESS record; otherwise the map_attribute results of all records are merged,
and if the merge is empty a FAILURE record per attribute record is returned
with nothing sent to the device, else the merged manufacturer attributes are
written through the manufacturer cluster and a single SUCCESS record is
returned.  attrName models the cluster attribute-id-to-name table; the second
component is what gets sent to the device. -/
def customTuyaOnOffWriteAttributes (attrName : ℕ → String)
    (mapAttr : String → ℤ → List (ℕ × ℤ)) (records : List WRecord) :
    List WStatusRecord × Option (List (ℕ × ℤ)) :=
  if records = [] then ([⟨.success, none⟩], none)
  else
    let manufacturerAttrs :=
      records.foldl (fun acc r => dictUpdate acc (mapAttr (attrName r.attrid) r.value)) []
    if manufacturerAttrs = [] then
      (records.map (fun r => ⟨.failure, some r.attrid⟩), none)
    else
      ([⟨.success, none⟩], some manufacturerAttrs)

/- Maxsmart manufacturer attribute ids (ts0601_trv_maxsmart.py, lines 45-80). -/

def MAXSMART_TARGET_TEMP_AUTO_ATTR : ℕ := 0x0269
def MAXSMART_TARGET_TEMP_MAN_ATTR : ℕ := 0x0210
def MAXSMART_TEMPERATURE_ATTR : ℕ := 0x0218
def MAXSMART_MODE_ATTR : ℕ := 0x0402
def MAXSMART_CHILD_LOCK_ATTR : ℕ := 0x011E
def MAXSMART_TEMP_CALIBRATION_ATTR : ℕ := 0x0268
def MAXSMART_WINDOW_DETECT_ATTR : ℕ := 0x016B
def MAXSMART_WINDOW_DETECT_TEMP_ATTR : ℕ := 0x0274
def MAXSMART_WINDOW_DETECT_TIME_ATTR : ℕ := 0x0275
def MAXSMART_COMFORT_TEMP_ATTR : ℕ := 0x0265
def MAXSMART_ECO_TEMP_ATTR : ℕ := 0x0266
def MAXSMART_BATTERY_ATTR : ℕ := 0x0222
def MAXSMART_AWAY_DATA_ATTR : ℕ := 0x0067
def MAXSMART_BOOST_COUNTDOWN : ℕ := 0x0276
def MAXSMART_BOOST_ATTR : ℕ := 0x016A
def MAXSMART_SCHEDULE_MONDAY : ℕ := 0x006D
def MAXSMART_SCHEDULE_TUESDAY : ℕ := 0x006E
def MAXSMART_SCHEDULE_WEDNESDAY : ℕ := 0x006F
def MAXSMART_SCHEDULE_THURSDAY : ℕ := 0x0070
def MAXSMART_SCHEDULE_FRIDAY : ℕ := 0x0071
def MAXSMART_SCHEDULE_SATURDAY : ℕ := 0x0072
def MAXSMART_SCHEDULE_SUNDAY : ℕ := 0x0073
def SILVERCREST_BATTERY_ATTR : ℕ := 0x0223
def SILVERCREST_CHILD_LOCK_ATTR : ℕ := 0x0128

/-- Value of a Maxsmart manufacturer attribute: a number (uint/int types) or a
byte list (the data64 away structure and the data144 schedules). -/
inductive MTVal where
  | num (q : ℚ)
  | bytes (l : List ℤ)
deriving DecidableEq

/-- Numeric use of an attribute value; a byte list raises TypeError. -/
def MTVal.asNum : MTVal → Except String ℚ
  | .num q => .ok q
  | .bytes _ => .error "TypeError: expected a number"

/-- Indexed use of an attribute value; a number raises TypeError. -/
def MTVal.asBytes : MTVal → Except String (List ℤ)
  | .num _ => .error "TypeError: expected a byte list"
  | .bytes l => .ok l

/-- Python list indexing: out of range raises IndexError. -/
def idxAt (l : List ℤ) (i : ℕ) : Except String ℤ :=
  match l[i]? with
  | some v => .ok v
  | none => .error "IndexError"

/-- An attribute value as a bus-event argument. -/
def MTVal.toArg : MTVal → EvArg
  | .num q => .num q
  | .bytes l => .bytes l

/-- Maxsmart manufacturer attribute cache. -/
def MMCache := ℕ → Option MTVal

/-- Pointwise cache update for the Maxsmart manufacturer cache. -/
def mStore (c : MMCache) (attrid : ℕ) (v : MTVal) : MMCache :=
  fun i => if i = attrid then some v else c i

/-- The lambda value: value / 2 * 100 shared by the auto and manual target
temperature entries of MaxsmartManufCluster.DIRECT_MAPPED_ATTRS. -/
def maxsmartHalfToCenti (v : MTVal) : Except String ℚ := do
  let q ← v.asNum
  pure (q / 2 * 100)

/-- The lambda value: value[2] / 2 * 100 of the away-data entry. -/
def maxsmartAwayToCenti (v : MTVal) : Except String ℚ := do
  let b ← v.asBytes
  let x ← idxAt b 2
  pure ((x : ℚ) / 2 * 100)

/-- The lambda value: value / 2 of the comfort, eco and window-detect
temperature entries. -/
def maxsmartHalf (v : MTVal) : Except String ℚ := do
  let q ← v.asNum
  pure (q / 2)

/-- The lambda value: value * 10 of the local-temperature and calibration
entries. -/
def maxsmartTimesTen (v : MTVal) : Except String ℚ := do
  let q ← v.asNum
  pure (q * 10)

/-- MaxsmartManufCluster.DIRECT_MAPPED_ATTRS (ts0601_trv_maxsmart.py, lines
241-269): manufacturer id to (standard attribute name, optional forward
conversion). -/
def maxsmartDirectMapped (attrid : ℕ) :
    Option (String × Option (MTVal → Except String ℚ)) :=
  if attrid = MAXSMART_TEMPERATURE_ATTR then
    some ("local_temperature", some maxsmartTimesTen)
  else if attrid = MAXSMART_TARGET_TEMP_AUTO_ATTR then
    some ("occupied_heating_setpoint", some maxsmartHalfToCenti)
  else if attrid = MAXSMART_TARGET_TEMP_MAN_ATTR then
    some ("occupied_heating_setpoint", some maxsmartHalfToCenti)
  else if attrid = MAXSMART_AWAY_DATA_ATTR then
    some ("unoccupied_heating_setpoint", some maxsmartAwayToCenti)
  else if attrid = MAXSMART_COMFORT_TEMP_ATTR then
    some ("comfort_heating_setpoint", some maxsmartHalf)
  else if attrid = MAXSMART_ECO_TEMP_ATTR then
    some ("eco_heating_setpoint", some maxsmartHalf)
  else if attrid = MAXSMART_TEMP_CALIBRATION_ATTR then
    some ("local_temperature_calibration", some maxsmartTimesTen)
  else if attrid = MAXSMART_WINDOW_DETECT_TEMP_ATTR then
    some ("window_detection_temp", some maxsmartHalf)
  else if attrid = MAXSMART_WINDOW_DETECT_TIME_ATTR then
    some ("window_detection_time", none)
  else none

/-- The battery conversion published as battery_change by
MaxsmartManufCluster._update_attribute (ts0601_trv_maxsmart.py, lines
286-294): 100 if value > 130 else 0 if value < 70 else
round((value - 70) * 1.67, 1). -/
def maxsmartBatteryPercent (v : ℚ) : ℚ :=
  if v > 130 then 100
  else if v < 70 then 0
  else pythonRound1 ((v - 70) * (167/100))

/-- MaxsmartManufCluster._update_attribute (ts0601_trv_maxsmart.py, lines
271-397): stores the raw value, publishes the direct-mapped
temperature_change event, then runs the special-case chain (battery, window
detection, mode and boost, current and target temperatures, child lock, away
data, eco, comfort, window-detect reporting, boost countdown, calibration,
schedules).  TypeError and IndexError situations of the Python code surface
as Except.error. -/
def maxsmartUpdateAttribute (attrid : ℕ) (value : MTVal) (c : MMCache) :
    Except String (MMCache × List Evt) := do
  let c2 := mStore c attrid value
  let evs1 ←
    match maxsmartDirectMapped attrid with
    | some (nm, fn) =>
      match fn with
      | none => pure [⟨"thermostat_bus", "temperature_change", [.str nm, value.toArg]⟩]
      | some f => do
        let q ← f value
        pure [⟨"thermostat_bus", "temperature_change", [.str nm, .num q]⟩]
    | none => pure ([] : List Evt)
  let evs2 ←
    if attrid = MAXSMART_BATTERY_ATTR ∨ attrid = SILVERCREST_BATTERY_ATTR then do
      let q ← value.asNum
      pure [⟨"battery_bus", "battery_change", [.num (maxsmartBatteryPercent q)]⟩]
    else if attrid = MAXSMART_WINDOW_DETECT_ATTR then
      pure [⟨"MaxsmartWindowDetection_bus", "set_value", [value.toArg]⟩]
    else if attrid = MAXSMART_MODE_ATTR ∨ attrid = MAXSMART_BOOST_ATTR then
      if attrid = MAXSMART_BOOST_ATTR ∧ value = .num 1 then
        pure [⟨"thermostat_bus", "mode_change", [.num 3]⟩]
      else if attrid = MAXSMART_MODE_ATTR then
        pure [⟨"thermostat_bus", "mode_change", [value.toArg]⟩]
      else
        pure ([] : List Evt)
    else if attrid = MAXSMART_TEMPERATURE_ATTR ∨
        attrid = MAXSMART_TARGET_TEMP_AUTO_ATTR ∨
        attrid = MAXSMART_TARGET_TEMP_MAN_ATTR then do
      let pre ←
        if attrid = MAXSMART_TARGET_TEMP_AUTO_ATTR then do
          let q ← maxsmartHalfToCenti value
          pure [⟨"thermostat_bus", "temperature_change",
                 [.str "occupied_heating_setpoint_auto", .num q]⟩]
        else if attrid = MAXSMART_TARGET_TEMP_MAN_ATTR then do
          let q ← maxsmartHalfToCenti value
          pure [⟨"thermostat_bus", "temperature_change",
                 [.str "occupied_heating_setpoint_manual", .num q]⟩]
        else
          pure ([] : List Evt)
      pure (pre ++ [⟨"thermostat_bus", "hass_climate_state_change",
                     [.num (attrid : ℚ), value.toArg]⟩])
    else if attrid = MAXSMART_CHILD_LOCK_ATTR ∨ attrid = SILVERCREST_CHILD_LOCK_ATTR then
      pure [⟨"ui_bus", "child_lock_change", [value.toArg]⟩,
            ⟨"thermostat_onoff_bus", "child_lock_change", [value.toArg]⟩]
    else if attrid = MAXSMART_AWAY_DATA_ATTR then do
      let b ← value.asBytes
      let b7 ← idxAt b 7
      let b6 ← idxAt b 6
      let b5 ← idxAt b 5
      let b4 ← idxAt b 4
      let b3 ← idxAt b 3
      let b2 ← idxAt b 2
      let away ← maxsmartAwayToCenti value
      let b1 ← idxAt b 1
      let b0 ← idxAt b 0
      pure [⟨"MaxsmartAwayYear_bus", "set_value", [.num (b7 : ℚ)]⟩,
            ⟨"MaxsmartAwayMonth_bus", "set_value", [.num (b6 : ℚ)]⟩,
            ⟨"MaxsmartAwayDay_bus", "set_value", [.num (b5 : ℚ)]⟩,
            ⟨"MaxsmartAwayHour_bus", "set_value", [.num (b4 : ℚ)]⟩,
            ⟨"MaxsmartAwayMinute_bus", "set_value", [.num (b3 : ℚ)]⟩,
            ⟨"MaxsmartAwayTemperature_bus", "set_value", [.num (b2 : ℚ)]⟩,
            ⟨"thermostat_bus", "temperature_change",
             [.str "occupied_heating_setpoint_away", .num away]⟩,
            ⟨"MaxsmartAwayOperTime_bus", "set_value", [.num (b1 : ℚ), .num (b0 : ℚ)]⟩]
    else if attrid = MAXSMART_ECO_TEMP_ATTR then do
      let q ← maxsmartHalf value
      pure [⟨"MaxsmartEcoTemperature_bus", "set_value", [.num q]⟩]
    else if attrid = MAXSMART_COMFORT_TEMP_ATTR then do
      let q ← maxsmartHalf value
      pure [⟨"MaxsmartComfortTemperature_bus", "set_value", [.num q]⟩]
    else if attrid = MAXSMART_WINDOW_DETECT_TEMP_ATTR then do
      let q ← maxsmartHalf value
      pure [⟨"MaxsmartWindowDetectTemperature_bus", "set_value", [.num q]⟩]
    else if attrid = MAXSMART_WINDOW_DETECT_TIME_ATTR then
      pure [⟨"MaxsmartWindowDetectTime_bus", "set_value", [value.toArg]⟩]
    else if attrid = MAXSMART_BOOST_COUNTDOWN then
      pure [⟨"MaxsmartBoostCountdown_bus", "set_value", [value.toArg]⟩]
    else if attrid = MAXSMART_TEMP_CALIBRATION_ATTR then do
      let q ← value.asNum
      pure [⟨"MaxsmartTempCalibration_bus", "set_value", [.num (q / 10)]⟩]
    else if attrid = MAXSMART_SCHEDULE_MONDAY ∨ attrid = MAXSMART_SCHEDULE_TUESDAY ∨
        attrid = MAXSMART_SCHEDULE_WEDNESDAY ∨ attrid = MAXSMART_SCHEDULE_THURSDAY ∨
        attrid = MAXSMART_SCHEDULE_FRIDAY ∨ attrid = MAXSMART_SCHEDULE_SATURDAY ∨
        attrid = MAXSMART_SCHEDULE_SUNDAY then
      pure [⟨"thermostat_bus", "schedule_change", [.num (attrid : ℚ), value.toArg]⟩]
    else if attrid = MAXSMART_TARGET_TEMP_MAN_ATTR ∧ value = .num 0 then
      pure [⟨"thermostat_bus", "system_mode_change", [.num 0]⟩]
    else
      pure ([] : List Evt)
  pure (c2, evs1 ++ evs2)

/- MaxsmartThermostat.Preset values (ts0601_trv_maxsmart.py, lines 507-516)
and the zigpy Thermostat enumerations used by the cluster, as rationals since
the synthetic thermostat cache mixes them with temperature values. -/

def presetAway : ℚ := 0x00
def presetSchedule : ℚ := 0x01
def presetManual : ℚ := 0x02
def presetComfort : ℚ := 0x03
def presetEco : ℚ := 0x04
def presetBoost : ℚ := 0x05
def presetComplex : ℚ := 0x06
def occupancyUnoccupied : ℚ := 0x00
def occupancyOccupied : ℚ := 0x01
def progModeSimple : ℚ := 0x00
def progModeSchedule : ℚ := 0x01

/-- Maxsmart synthetic Thermostat attribute cache (string-named standard
attributes; rational values since schedule attributes are half-precision
floats). -/
def MThermo := String → Option ℚ

/-- Cache update on the synthetic thermostat; the stored value is an Option
because _update_attribute is also reached with a missing (None) cached
value. -/
def mtStore (c : MThermo) (k : String) (v : Option ℚ) : MThermo :=
  fun k2 => if k2 = k then v else c k2

/-- The cached state of the away sub-clusters (year, month, day, hour,
minute, operating time) that MaxsmartManufCluster.away_cluster_get collects
over the per-field buses.  The AnalogOutput constructors never initialise
present_value, so each get_value returns Python None until the device has
reported away data: every field is an Option, none being the fresh-device
default.  The temperature field is overridden by the caller and is therefore
not part of this state. -/
structure AwayState where
  year : Option ℚ
  month : Option ℚ
  day : Option ℚ
  hour : Option ℚ
  minute : Option ℚ
  operTime : Option ℚ
deriving DecidableEq

/-- Python int() of an optionally cached value: int(None) raises TypeError. -/
def intOfOpt : Option ℚ → Except String ℤ
  | none => .error "TypeError: int of NoneType"
  | some q => .ok (intTrunc q)

/-- MaxsmartManufCluster.away_cluster_get for field "temperature"
(ts0601_trv_maxsmart.py, lines 399-443): the 8-byte away structure
[oper_time low byte, oper_time high byte, int(temperature * 2), int(minute),
int(hour), int(day), int(month), int(year - 2000)].  The error paths of the
Python code are kept: int(oper_time) raises TypeError when the operating-time
cache is unset, int(oper_time).to_bytes(2, "big") raises OverflowError
outside [0, 65535], and each of the remaining int(...) appends raises
TypeError (None arithmetic for year) when its cache is unset, in the
evaluation order of the source. -/
def awayClusterGetTemperature (aw : AwayState) (presentValue : ℚ) :
    Except String (List ℤ) := do
  let ot ← intOfOpt aw.operTime
  if ot < 0 ∨ 65536 ≤ ot then
    .error "OverflowError: int too big to convert"
  else do
    let mi ← intOfOpt aw.minute
    let ho ← intOfOpt aw.hour
    let da ← intOfOpt aw.day
    let mo ← intOfOpt aw.month
    let yr ← match aw.year with
      | none => .error "TypeError: unsupported operand type for NoneType"
      | some y => .ok (intTrunc (y - 2000))
    pure [ot % 256, ot / 256,
          intTrunc (presentValue * 2),
          mi, ho, da, mo, yr]

/-- The lambda value: round(value / 100 * 2) shared by most entries of
MaxsmartThermostat.DIRECT_MAPPING_ATTRS. -/
def maxsmartRoundToHalf (v : ℚ) : ℤ := pythonRound (v / 100 * 2)

/-- The lambda value: round(value / 10) of the calibration entry. -/
def maxsmartRoundTenth (v : ℚ) : ℤ := pythonRound (v / 10)

/-- MaxsmartThermostat.DIRECT_MAPPING_ATTRS (ts0601_trv_maxsmart.py, lines
561-588): standard attribute name to (manufacturer id, optional reverse
conversion). -/
def maxsmartDirectMapping (attr : String) : Option (ℕ × Option (ℚ → ℤ)) :=
  if attr = "occupied_heating_setpoint_auto" then
    some (MAXSMART_TARGET_TEMP_AUTO_ATTR, some maxsmartRoundToHalf)
  else if attr = "occupied_heating_setpoint_manual" then
    some (MAXSMART_TARGET_TEMP_MAN_ATTR, some maxsmartRoundToHalf)
  else if attr = "occupied_heating_setpoint_away" then
    some (MAXSMART_AWAY_DATA_ATTR, none)
  else if attr = "comfort_heating_setpoint" then
    some (MAXSMART_COMFORT_TEMP_ATTR, some maxsmartRoundToHalf)
  else if attr = "eco_heating_setpoint" then
    some (MAXSMART_ECO_TEMP_ATTR, some maxsmartRoundToHalf)
  else if attr = "local_temperature_calibration" then
    some (MAXSMART_TEMP_CALIBRATION_ATTR, some maxsmartRoundTenth)
  else if attr = "window_detection_temp" then
    some (MAXSMART_WINDOW_DETECT_TEMP_ATTR, some maxsmartRoundToHalf)
  else if attr = "window_detection_time" then
    some (MAXSMART_WINDOW_DETECT_TIME_ATTR, none)
  else none

/-- Byte-list containment on characters, used for the Python substring test. -/
def charsContains (hay needle : List Char) : Bool :=
  match hay with
  | [] => needle.isEmpty
  | _ :: t => needle.isPrefixOf hay || charsContains t needle

/-- Python substring test: needle in s. -/
def strIn (needle s : String) : Bool :=
  charsContains s.toList needle.toList

/-- The day table of the schedule branch of map_attribute, in iteration
order. -/
def scheduleDays : List (ℕ × String) :=
  [(MAXSMART_SCHEDULE_MONDAY, "monday"),
   (MAXSMART_SCHEDULE_TUESDAY, "tuesday"),
   (MAXSMART_SCHEDULE_WEDNESDAY, "wednesday"),
   (MAXSMART_SCHEDULE_THURSDAY, "thursday"),
   (MAXSMART_SCHEDULE_FRIDAY, "friday"),
   (MAXSMART_SCHEDULE_SATURDAY, "saturday"),
   (MAXSMART_SCHEDULE_SUNDAY, "sunday")]

/-- The per-slot schedule attribute name: schedule_day_ceil(y/2)_name with
name = temperature for odd y and hour for even y. -/
def scheduleAttrName (day : String) (y : ℕ) : String :=
  "schedule_" ++ day ++ "_" ++ toString ((y + 1) / 2) ++ "_" ++
    (if y % 2 = 1 then "temperature" else "hour")

/-- MaxsmartThermostat.map_attribute (ts0601_trv_maxsmart.py, lines 605-731).
The result is the optional manufacturer dict (Python None becomes none)
together with the possibly updated synthetic cache, as the away branch writes
occupied_heating_setpoint back into the cache.  Python exceptions surface as
Except.error: the KeyError on DIRECT_MAPPING_ATTRS[None] when the cached
preset is Comfort, Eco or Complex; the TypeError on round(None * k) when a
sibling schedule value was never cached; and, in the away branch, the
IndexError on data[0] — when away_cluster_get raises, the host bus machinery
(listener_event, which per the spec catches and logs a listener failure)
returns an empty result list and indexing it raises IndexError inside
map_attribute. -/
def maxsmartMapAttribute (c : MThermo) (aw : AwayState) (attr : String)
    (value : ℚ) : Except String (Option (List (ℕ × MTVal)) × MThermo) :=
  match maxsmartDirectMapping attr with
  | some (mid, fn) =>
    .ok (some [(mid, .num (match fn with | none => value | some f => (f value : ℚ)))], c)
  | none =>
    if attr = "occupied_heating_setpoint" then
      let mode := (c "operation_preset").getD presetSchedule
      let attributeMode : Option String :=
        if mode = presetSchedule then some "occupied_heating_setpoint_auto"
        else if mode = presetManual then some "occupied_heating_setpoint_manual"
        else if mode = presetBoost then some "occupied_heating_setpoint_auto"
        else none
      if mode ≠ presetAway then
        match attributeMode with
        | none => .error "KeyError: None"
        | some am =>
          match maxsmartDirectMapping am with
          | some (mid, fn) =>
            .ok (some [(mid, .num (match fn with | none => value | some f => (f value : ℚ)))], c)
          | none => .error "KeyError"
      else
        match awayClusterGetTemperature aw (value / 100) with
        | .error _ => .error "IndexError: list index out of range"
        | .ok data =>
          let c2 := mtStore c "occupied_heating_setpoint"
            (some (((data.getD 2 0 : ℤ) : ℚ) / 2 * 100))
          .ok (some [(MAXSMART_AWAY_DATA_ATTR, .bytes data)], c2)
    else if attr = "operation_preset" then
      if value = 0 then
        .ok (some [(MAXSMART_MODE_ATTR, .num 2), (MAXSMART_BOOST_ATTR, .num 0)], c)
      else if value = 1 then
        .ok (some [(MAXSMART_MODE_ATTR, .num 0), (MAXSMART_BOOST_ATTR, .num 0)], c)
      else if value = 2 then
        .ok (some [(MAXSMART_MODE_ATTR, .num 1), (MAXSMART_BOOST_ATTR, .num 0)], c)
      else if value = 5 then
        .ok (some [(MAXSMART_BOOST_ATTR, .num 1)], c)
      else
        .ok (none, c)
    else if attr = "programing_oper_mode" ∨ attr = "occupancy" then
      let occupancy := if attr = "occupancy" then value
        else (c "occupancy").getD occupancyOccupied
      let operMode := if attr = "occupancy" then
        (c "programing_oper_mode").getD progModeSimple else value
      if occupancy = occupancyUnoccupied then
        .ok (some [(MAXSMART_MODE_ATTR, .num 2)], c)
      else if occupancy = occupancyOccupied then
        if operMode = progModeSchedule then
          .ok (some [(MAXSMART_MODE_ATTR, .num 0)], c)
        else if operMode = progModeSimple then
          .ok (some [(MAXSMART_MODE_ATTR, .num 1)], c)
        else
          .ok (none, c)
      else
        .ok (none, c)
    else if attr = "system_mode" then
      if value = (systemModeOff : ℚ) then
        .ok (some [(MAXSMART_MODE_ATTR, .num 1), (MAXSMART_TARGET_TEMP_MAN_ATTR, .num 0)], c)
      else
        .ok (some [(MAXSMART_MODE_ATTR, .num 0)], c)
    else if strIn "schedule_" attr then
      match scheduleDays.enum.find? (fun p => strIn p.2.2 attr) with
      | some (num, dayAttrid, dayName) =>
        match ((List.range 17).reverse.map (· + 1)).mapM (fun y =>
          if attr = scheduleAttrName dayName y then
            Except.ok (pythonRound (value * (if y % 2 = 1 then 2 else 4)))
          else
            match c (scheduleAttrName dayName y) with
            | some cached =>
              Except.ok (pythonRound (cached * (if y % 2 = 1 then 2 else 4)))
            | none => Except.error "TypeError: NoneType schedule value") with
        | .ok vals => .ok (some [(dayAttrid, .bytes (vals ++ [(num : ℤ) + 1]))], c)
        | .error e => .error e
      | none => .ok (none, c)
    else
      .ok (none, c)

/-- MaxsmartThermostat.mode_change (ts0601_trv_maxsmart.py, lines 749-801).
Mode bytes 0 (schedule), 1 (manual), 2 (away) and 3 (boost) update
programing_oper_mode, occupancy, operation_preset and system_mode, the first
three also copying the matching cached setpoint into
occupied_heating_setpoint; any other byte leaves operation_preset unbound and
the Python code raises UnboundLocalError. -/
def maxsmartModeChange (value : ℤ) (c : MThermo) : Except String MThermo :=
  if value = 0 then
    let c1 := mtStore c "occupied_heating_setpoint" (c "occupied_heating_setpoint_auto")
    let c2 := mtStore (mtStore (mtStore c1
      "programing_oper_mode" (some progModeSchedule))
      "occupancy" (some occupancyOccupied))
      "operation_preset" (some presetSchedule)
    .ok (mtStore c2 "system_mode" (some (systemModeHeat : ℚ)))
  else if value = 1 then
    let tempManual := c "occupied_heating_setpoint_manual"
    let c1 := mtStore c "occupied_heating_setpoint" tempManual
    let c2 := mtStore (mtStore (mtStore c1
      "programing_oper_mode" (some progModeSimple))
      "occupancy" (some occupancyOccupied))
      "operation_preset" (some presetManual)
    .ok (mtStore c2 "system_mode"
      (some (if tempManual = some 0 then (systemModeOff : ℚ) else (systemModeHeat : ℚ))))
  else if value = 2 then
    let c1 := mtStore c "occupied_heating_setpoint" (c "occupied_heating_setpoint_away")
    let c2 := mtStore (mtStore (mtStore c1
      "programing_oper_mode" (some progModeSimple))
      "occupancy" (some occupancyUnoccupied))
      "operation_preset" (some presetAway)
    .ok (mtStore c2 "system_mode" (some (systemModeHeat : ℚ)))
  else if value = 3 then
    let c2 := mtStore (mtStore (mtStore c
      "programing_oper_mode" (some progModeSimple))
      "occupancy" (some occupancyOccupied))
      "operation_preset" (some presetBoost)
    .ok (mtStore c2 "system_mode" (some (systemModeHeat : ℚ)))
  else
    .error "UnboundLocalError: operation_preset"

/- Avatto manufacturer attribute ids (ts0601_thermostat_avatto.py, lines
43-50). -/

def AVATTO_TARGET_TEMP_ATTR : ℕ := 0x0210
def AVATTO_TEMPERATURE_ATTR : ℕ := 0x0218
def AVATTO_MODE_ATTR : ℕ := 0x0402
def AVATTO_SYSTEM_MODE_ATTR : ℕ := 0x0101
def AVATTO_HEAT_STATE_ATTR : ℕ := 0x0424
def BEOK_HEAT_STATE_ATTR : ℕ := 0x0403
def AVATTO_CHILD_LOCK_ATTR : ℕ := 0x0128
def AVATTO_TEMP_CALIBRATION_ATTR : ℕ := 0x021B

/-- The lambda value: value * 100 of AvattoManufCluster.DIRECT_MAPPED_ATTRS. -/
def avattoTimesHundred (value : ℤ) : ℤ := value * 100

/-- The lambda value: value * 10 of AvattoManufCluster.DIRECT_MAPPED_ATTRS. -/
def avattoTimesTen (value : ℤ) : ℤ := value * 10

/-- AvattoManufCluster.DIRECT_MAPPED_ATTRS (ts0601_thermostat_avatto.py,
lines 195-206): manufacturer id to (standard attribute name, default
conversion, alternate per-SKU conversion). -/
def avattoDirectMapped (attrid : ℕ) :
    Option (String × Option (ℤ → ℤ) × Option (ℤ → ℤ)) :=
  if attrid = AVATTO_TEMPERATURE_ATTR then
    some ("local_temperature", some avattoTimesHundred, some avattoTimesTen)
  else if attrid = AVATTO_TARGET_TEMP_ATTR then
    some ("occupied_heating_setpoint", some avattoTimesHundred, some avattoTimesTen)
  else none

/-- The manufacturer-string condition under which
AvattoManufCluster._update_attribute picks the alternate (times ten) scale:
the two listed SKUs always, and four further SKUs for the current-temperature
attribute only (ts0601_thermostat_avatto.py, lines 212-224). -/
def avattoScale10 (mfr : String) (attrid : ℕ) : Bool :=
  (mfr == "_TZE200_2ekuz3dz" || mfr == "_TZE200_g9a3awaj") ||
  (attrid == AVATTO_TEMPERATURE_ATTR &&
    (mfr == "_TZE204_u9bfwha0" || mfr == "_TZE200_u9bfwha0" ||
     mfr == "_TZE200_aoclfnxz" || mfr == "_TZE204_aoclfnxz"))

/-- AvattoManufCluster._update_attribute (ts0601_thermostat_avatto.py, lines
208-279): stores the raw value; publishes the direct-mapped
temperature_change only when the raw value is below 500, scaling by ten or by
one hundred according to the manufacturer string; then handles calibration,
child lock, mode, heat state and system mode.  The boolean not value of the
heat-state branch is modelled as 1 for zero and 0 otherwise. -/
def avattoUpdateAttribute (mfr : String) (attrid : ℕ) (value : ℤ)
    (c : SCache) : SCache × List Evt :=
  let c2 := sStore c attrid value
  let evs1 : List Evt :=
    match avattoDirectMapped attrid with
    | some (nm, fn1, fn2) =>
      if value < 500 then
        if avattoScale10 mfr attrid then
          [⟨"thermostat_bus", "temperature_change",
            [.str nm, .num (((match fn2 with | none => value | some f => f value) : ℤ) : ℚ)]⟩]
        else
          [⟨"thermostat_bus", "temperature_change",
            [.str nm, .num (((match fn1 with | none => value | some f => f value) : ℤ) : ℚ)]⟩]
      else []
    | none => []
  let evs2 : List Evt :=
    if attrid = AVATTO_TEMP_CALIBRATION_ATTR then
      if mfr = "_TZE200_2ekuz3dz" ∨ mfr = "_TZE200_g9a3awaj" then
        [⟨"AvattoTempCalibration_bus", "set_value", [.num ((value : ℚ) / 10)]⟩]
      else
        [⟨"AvattoTempCalibration_bus", "set_value", [.num (value : ℚ)]⟩]
    else []
  let evs3 : List Evt :=
    if attrid = AVATTO_CHILD_LOCK_ATTR then
      [⟨"ui_bus", "child_lock_change", [.num (value : ℚ)]⟩,
       ⟨"thermostat_onoff_bus", "child_lock_change", [.num (value : ℚ)]⟩]
    else if attrid = AVATTO_MODE_ATTR then
      [⟨"thermostat_bus", "mode_change", [.num (value : ℚ)]⟩]
    else if attrid = AVATTO_HEAT_STATE_ATTR then
      if mfr = "_TZE200_g9a3awaj" then
        [⟨"thermostat_bus", "state_change", [.num (value : ℚ)]⟩]
      else
        [⟨"thermostat_bus", "state_change", [.num (if value = 0 then 1 else 0)]⟩]
    else if attrid = BEOK_HEAT_STATE_ATTR then
      [⟨"thermostat_bus", "state_change", [.num (value : ℚ)]⟩]
    else if attrid = AVATTO_SYSTEM_MODE_ATTR then
      [⟨"thermostat_bus", "system_mode_change", [.num (value : ℚ)]⟩]
    else []
  (c2, evs1 ++ evs2 ++ evs3)

/-- Every manufacturer attribute id that SaswellManufCluster._update_attribute
treats specially: the DIRECT_MAPPED_ATTRS keys and the special-case chain. -/
def saswellHandledIds : List ℕ :=
  [SASWELL_ROOM_TEMP_ATTR, SASWELL_TARGET_TEMP_ATTR, SASWELL_TEMP_CORRECTION_ATTR,
   SASWELL_ONOFF_ATTR, SASWELL_SCHEDULE_MODE_ATTR, SASWELL_AWAY_MODE_ATTR,
   SASWELL_CHILD_LOCK_ATTR, SASWELL_WINDOW_DETECT_ATTR, SASWELL_ANTI_FREEZE_ATTR,
   SASWELL_LIMESCALE_PROTECT_ATTR, SASWELL_BATTERY_ALARM_ATTR]

/-- Every manufacturer attribute id that MaxsmartManufCluster._update_attribute
treats specially: the DIRECT_MAPPED_ATTRS keys and the special-case chain. -/
def maxsmartHandledIds : List ℕ :=
  [MAXSMART_TEMPERATURE_ATTR, MAXSMART_TARGET_TEMP_AUTO_ATTR,
   MAXSMART_TARGET_TEMP_MAN_ATTR, MAXSMART_AWAY_DATA_ATTR,
   MAXSMART_COMFORT_TEMP_ATTR, MAXSMART_ECO_TEMP_ATTR,
   MAXSMART_TEMP_CALIBRATION_ATTR, MAXSMART_WINDOW_DETECT_TEMP_ATTR,
   MAXSMART_WINDOW_DETECT_TIME_ATTR, MAXSMART_BATTERY_ATTR,
   SILVERCREST_BATTERY_ATTR, MAXSMART_WINDOW_DETECT_ATTR, MAXSMART_MODE_ATTR,
   MAXSMART_BOOST_ATTR, MAXSMART_CHILD_LOCK_ATTR, SILVERCREST_CHILD_LOCK_ATTR,
   MAXSMART_BOOST_COUNTDOWN, MAXSMART_SCHEDULE_MONDAY, MAXSMART_SCHEDULE_TUESDAY,
   MAXSMART_SCHEDULE_WEDNESDAY, MAXSMART_SCHEDULE_THURSDAY,
   MAXSMART_SCHEDULE_FRIDAY, MAXSMART_SCHEDULE_SATURDAY, MAXSMART_SCHEDULE_SUNDAY]

/-- C1: when the Saswell manufacturer cluster receives the raw
room-temperature attribute 0x0266 with value 202, the published
temperature_change event for local_temperature carries 2020 (decidegrees
times ten); and SaswellThermostatCluster.map_attribute applied to
occupied_heating_setpoint with value 2150 returns exactly the manufacturer
write of 215 = round(2150 / 10) to SASWELL_TARGET_TEMP_ATTR (0x0267). -/
theorem saswell_temperature_conversion_c1 (c : SCache) :
    (saswellUpdateAttribute SASWELL_ROOM_TEMP_ATTR 202 c).2 =
      [⟨"thermostat_bus", "temperature_change",
        [.str "local_temperature", .num 2020]⟩,
       ⟨"thermostat_bus", "hass_climate_state_change",
        [.num 614, .num 202]⟩] ∧
    saswellMapAttribute "occupied_heating_setpoint" 2150 =
      some [(SASWELL_TARGET_TEMP_ATTR, 215)] := by
  constructor
  · norm_num [saswellUpdateAttribute, saswellDirectMapped, saswellTimesTen,
      SASWELL_ROOM_TEMP_ATTR, SASWELL_TARGET_TEMP_ATTR,
      SASWELL_TEMP_CORRECTION_ATTR, SASWELL_ONOFF_ATTR,
      SASWELL_SCHEDULE_MODE_ATTR, SASWELL_AWAY_MODE_ATTR,
      SASWELL_CHILD_LOCK_ATTR, SASWELL_WINDOW_DETECT_ATTR,
      SASWELL_ANTI_FREEZE_ATTR, SASWELL_LIMESCALE_PROTECT_ATTR,
      SASWELL_BATTERY_ALARM_ATTR]
  · simp only [saswellMapAttribute, String.reduceEq, if_false, if_true]
    norm_num [pythonRound]

/-- C2: round trip of the Saswell temperature conversion pair: feeding any raw
device target-temperature value x through the forward converter (times ten)
and back through map_attribute of occupied_heating_setpoint (round of a tenth)
returns exactly x. -/
theorem saswell_roundtrip_c2 (x : ℤ) :
    saswellMapAttribute "occupied_heating_setpoint" (saswellTimesTen x) =
      some [(SASWELL_TARGET_TEMP_ATTR, x)] := by
  have hx : ((saswellTimesTen x : ℤ) : ℚ) / 10 = (x : ℚ) := by
    rw [saswellTimesTen]
    push_cast
    rw [mul_div_cancel_right₀]
    norm_num
  simp [saswellMapAttribute, hx, pythonRound_intCast]

/-- C3: when MaxsmartThermostat.mode_change receives mode byte 2 (away) and
the away setpoint has previously been cached, the resulting cache holds
system_mode Heat, occupancy Unoccupied, operation_preset Away, and
occupied_heating_setpoint equal to the cached away setpoint. -/
theorem maxsmart_away_mode_change_c3 (c : MThermo) (tAway : ℚ)
    (h : c "occupied_heating_setpoint_away" = some tAway) :
    ∃ c2, maxsmartModeChange 2 c = .ok c2 ∧
      c2 "system_mode" = some (systemModeHeat : ℚ) ∧
      c2 "occupancy" = some occupancyUnoccupied ∧
      c2 "operation_preset" = some presetAway ∧
      c2 "occupied_heating_setpoint" = some tAway := by
  unfold maxsmartModeChange
  norm_num
  refine ⟨?_, ?_, ?_, ?_⟩ <;> simp [mtStore, String.reduceEq, h]

/-- Concrete synthetic-thermostat cache holding only a cached away setpoint,
used to witness the away mode change. -/
def awayWitnessCache : MThermo :=
  fun k => if k = "occupied_heating_setpoint_away" then some 1800 else none

/-- Witness for C3 at a concrete cache with away setpoint 1800. -/
theorem maxsmart_away_mode_change_c3_witness :
    ∃ c2, maxsmartModeChange 2 awayWitnessCache = .ok c2 ∧
      c2 "system_mode" = some (systemModeHeat : ℚ) ∧
      c2 "occupancy" = some occupancyUnoccupied ∧
      c2 "operation_preset" = some presetAway ∧
      c2 "occupied_heating_setpoint" = some 1800 :=
  maxsmart_away_mode_change_c3 awayWitnessCache 1800 (by simp [awayWitnessCache])

/-- C4: an update for a manufacturer attribute id that appears in no
conversion or special-case table publishes no bus event on either the Saswell
or the Maxsmart manufacturer cluster, raises nothing (the Maxsmart handler
returns ok), and still stores the raw value in the attribute cache. -/
theorem unknown_attribute_cached_c4 (attrid : ℕ) (v : ℤ) (mv : MTVal)
    (sc : SCache) (mc : MMCache)
    (hs : attrid ∉ saswellHandledIds) (hm : attrid ∉ maxsmartHandledIds) :
    saswellUpdateAttribute attrid v sc = (sStore sc attrid v, []) ∧
    maxsmartUpdateAttribute attrid mv mc = .ok (mStore mc attrid mv, []) := by
  simp only [saswellHandledIds, maxsmartHandledIds, List.mem_cons,
    List.mem_singleton, not_or] at hs hm
  obtain ⟨s1, s2, s3, s4, s5, s6, s7, s8, s9, s10, s11⟩ := hs
  obtain ⟨m1, m2, m3, m4, m5, m6, m7, m8, m9, m10, m11, m12, m13, m14, m15,
    m16, m17, m18, m19, m20, m21, m22, m23, m24⟩ := hm
  constructor
  · simp [saswellUpdateAttribute, saswellDirectMapped,
      s1, s2, s3, s4, s5, s6, s7, s8, s9, s10, s11]
  · simp [maxsmartUpdateAttribute, maxsmartDirectMapped, pure, Except.pure,
      bind, Except.bind,
      m1, m2, m3, m4, m5, m6, m7, m8, m9, m10, m11, m12, m13, m14, m15,
      m16, m17, m18, m19, m20, m21, m22, m23, m24]

/-- Witness for C4 at the concrete unknown id 0x9999. -/
theorem unknown_attribute_cached_c4_witness :
    saswellUpdateAttribute 0x9999 7 (fun _ => none) =
      (sStore (fun _ => none) 0x9999 7, []) ∧
    maxsmartUpdateAttribute 0x9999 (.num 7) (fun _ => none) =
      .ok (mStore (fun _ => none) 0x9999 (.num 7), []) :=
  unknown_attribute_cached_c4 0x9999 7 (.num 7) (fun _ => none) (fun _ => none)
    (by decide) (by decide)

/-- Folding dict updates with empty contributions leaves the accumulator
unchanged. -/
theorem foldl_dictUpdate_empty (attrName : ℕ → String)
    (mapAttr : String → ℤ → List (ℕ × ℤ)) :
    ∀ (l : List WRecord),
      (∀ r ∈ l, mapAttr (attrName r.attrid) r.value = []) →
      ∀ acc, l.foldl (fun acc r => dictUpdate acc (mapAttr (attrName r.attrid) r.value)) acc = acc := by
  intro l
  induction l with
  | nil => intro _ acc; rfl
  | cons x xs ih =>
    intro h acc
    simp only [List.foldl_cons]
    rw [h x (by simp)]
    exact ih (fun r hr => h r (by simp [hr])) acc

/-- C5: on the synthetic OnOff cluster write path, if map_attribute produces
no manufacturer attributes for any record of a non-empty record set then
write_attributes answers with a FAILURE status record per attribute record
and sends nothing to the device; an empty record set yields a single SUCCESS
record. -/
theorem onoff_write_unsupported_c5 (attrName : ℕ → String)
    (mapAttr : String → ℤ → List (ℕ × ℤ)) (records : List WRecord)
    (hne : records ≠ [])
    (hempty : ∀ r ∈ records, mapAttr (attrName r.attrid) r.value = []) :
    customTuyaOnOffWriteAttributes attrName mapAttr records =
      (records.map (fun r => ⟨.failure, some r.attrid⟩), none) ∧
    customTuyaOnOffWriteAttributes attrName mapAttr [] =
      ([⟨.success, none⟩], none) := by
  constructor
  · unfold customTuyaOnOffWriteAttributes
    rw [if_neg hne]
    simp only [foldl_dictUpdate_empty attrName mapAttr records hempty []]
    simp
  · rfl

/-- Witness for C5: a single unsupported write record yields one FAILURE
record naming its attribute id. -/
theorem onoff_write_unsupported_c5_witness :
    customTuyaOnOffWriteAttributes (fun _ => "on_off") (fun _ _ => []) [⟨0, 1⟩] =
      ([⟨.failure, some 0⟩], none) ∧
    customTuyaOnOffWriteAttributes (fun _ => "on_off") (fun _ _ => []) [] =
      ([⟨.success, none⟩], none) :=
  onoff_write_unsupported_c5 (fun _ => "on_off") (fun _ _ => []) [⟨0, 1⟩]
    (by decide) (fun r _ => rfl)

/-- Whether a modelled Python computation completed without raising. -/
def exceptIsOk {α : Type} (r : Except String α) : Bool :=
  match r with
  | .ok _ => true
  | .error _ => false

/-- Concrete synthetic-thermostat cache with cached operation_preset Manual. -/
def manualPresetCache : MThermo :=
  fun k => if k = "operation_preset" then some presetManual else none

/-- Concrete synthetic-thermostat cache with cached operation_preset Away. -/
def awayPresetCache : MThermo :=
  fun k => if k = "operation_preset" then some presetAway else none

/-- Concrete synthetic-thermostat cache with cached operation_preset Comfort. -/
def comfortPresetCache : MThermo :=
  fun k => if k = "operation_preset" then some presetComfort else none

/-- Concrete fresh-device away sub-cluster state: the device has never
reported away data, so every present_value cache is unset. -/
def unsetAway : AwayState := ⟨none, none, none, none, none, none⟩

/-- Concrete fully reported away sub-cluster state. -/
def reportedAway : AwayState := ⟨some 2023, some 1, some 1, some 0, some 0, some 34⟩

/-- Counterexample to C6: with operation_preset Away cached and the
fresh-device away sub-cluster state (no present_value ever reported),
map_attribute on occupied_heating_setpoint does not return the away-data
write to 0x0067: away_cluster_get raises on int(None), listener_event
returns an empty list, and data[0] raises IndexError out of map_attribute. -/
theorem maxsmart_setpoint_routing_c6_counterexample :
    exceptIsOk (maxsmartMapAttribute awayPresetCache unsetAway
      "occupied_heating_setpoint" 2000) = false := by
  simp [maxsmartMapAttribute, maxsmartDirectMapping, String.reduceEq,
    awayPresetCache, unsetAway, awayClusterGetTemperature, intOfOpt,
    exceptIsOk, bind, Except.bind, presetAway, presetSchedule, presetManual,
    presetBoost]

/-- C6 (amended): MaxsmartThermostat.map_attribute on
occupied_heating_setpoint reads the cached operation_preset (defaulting to
Schedule when absent) and targets the auto setpoint attribute 0x0269 for
Schedule and Boost and the manual setpoint attribute 0x0210 for Manual,
encoding round(value / 100 * 2); for Away it returns the 8-byte away-data
write to 0x0067 exactly when the away sub-cluster composition succeeds (all
away caches set, operating time within two bytes), and raises IndexError on
the empty bus result when the composition fails — in particular in the
fresh-device state with the away caches unset. -/
theorem maxsmart_setpoint_routing_c6 (c : MThermo) (aw : AwayState) (v p : ℚ)
    (hp : (c "operation_preset").getD presetSchedule = p)
    (hmem : p = presetAway ∨ p = presetSchedule ∨ p = presetManual ∨ p = presetBoost) :
    maxsmartMapAttribute c aw "occupied_heating_setpoint" v =
      (if p = presetAway then
        (match awayClusterGetTemperature aw (v / 100) with
         | .error _ => .error "IndexError: list index out of range"
         | .ok data =>
           .ok (some [(MAXSMART_AWAY_DATA_ATTR, .bytes data)],
             mtStore c "occupied_heating_setpoint"
               (some (((data.getD 2 0 : ℤ) : ℚ) / 2 * 100))))
      else
        .ok (some [((if p = presetManual then MAXSMART_TARGET_TEMP_MAN_ATTR
              else MAXSMART_TARGET_TEMP_AUTO_ATTR),
            .num (maxsmartRoundToHalf v))], c)) := by
  have hp2 : (c "operation_preset").getD 1 = p := by
    simpa [presetSchedule] using hp
  rcases hmem with h | h | h | h <;> subst h <;>
    simp [maxsmartMapAttribute, maxsmartDirectMapping, String.reduceEq, hp2,
      presetAway, presetSchedule, presetManual, presetBoost]

/-- Witness for C6 (amended): the Manual routing at a concrete cache, and the
Away routing at a concrete cache with a fully reported away state. -/
theorem maxsmart_setpoint_routing_c6_witness :
    maxsmartMapAttribute manualPresetCache unsetAway "occupied_heating_setpoint" 2000 =
      .ok (some [(MAXSMART_TARGET_TEMP_MAN_ATTR, .num (maxsmartRoundToHalf 2000))],
        manualPresetCache) ∧
    maxsmartMapAttribute awayPresetCache reportedAway "occupied_heating_setpoint" 1800 =
      (match awayClusterGetTemperature reportedAway (1800 / 100) with
       | .error _ => .error "IndexError: list index out of range"
       | .ok data =>
         .ok (some [(MAXSMART_AWAY_DATA_ATTR, .bytes data)],
           mtStore awayPresetCache "occupied_heating_setpoint"
             (some (((data.getD 2 0 : ℤ) : ℚ) / 2 * 100)))) := by
  constructor
  · have h := maxsmart_setpoint_routing_c6 manualPresetCache unsetAway 2000 presetManual
      (by simp [manualPresetCache, String.reduceEq])
      (Or.inr (Or.inr (Or.inl rfl)))
    simpa [presetManual, presetAway] using h
  · have h := maxsmart_setpoint_routing_c6 awayPresetCache reportedAway 1800 presetAway
      (by simp [awayPresetCache, String.reduceEq])
      (Or.inl rfl)
    simpa using h

/-- Counterexample to C7: with cached operation_preset Comfort (0x03),
MaxsmartThermostat.map_attribute on occupied_heating_setpoint does not return
a dict or None; the Python code raises KeyError
(DIRECT_MAPPING_ATTRS[None]), modelled as an error outcome. -/
theorem maxsmart_map_attribute_raises_c7_counterexample :
    exceptIsOk (maxsmartMapAttribute comfortPresetCache unsetAway
      "occupied_heating_setpoint" 2000) = false := by
  simp [maxsmartMapAttribute, maxsmartDirectMapping, String.reduceEq,
    comfortPresetCache, exceptIsOk, presetComfort, presetSchedule,
    presetManual, presetBoost, presetAway]

/-- C7 (amended): MaxsmartThermostat.map_attribute on
occupied_heating_setpoint returns a result (no exception) whenever the cached
operation_preset is Schedule, Manual or Boost, or absent; it raises KeyError
when the cached preset is Comfort, Eco or Complex; and for preset Away it
completes without raising exactly when the away sub-cluster composition
succeeds, raising IndexError otherwise — in particular on a fresh device
whose away caches are unset.  The reverse mapping is therefore not
exception-free for every cached operation_preset. -/
theorem maxsmart_map_attribute_totality_c7 (c : MThermo) (aw : AwayState)
    (v p : ℚ) (hp : (c "operation_preset").getD presetSchedule = p) :
    ((p = presetComfort ∨ p = presetEco ∨ p = presetComplex) →
      exceptIsOk (maxsmartMapAttribute c aw "occupied_heating_setpoint" v) = false) ∧
    ((p = presetSchedule ∨ p = presetManual ∨ p = presetBoost) →
      exceptIsOk (maxsmartMapAttribute c aw "occupied_heating_setpoint" v) = true) ∧
    (p = presetAway →
      exceptIsOk (maxsmartMapAttribute c aw "occupied_heating_setpoint" v) =
        exceptIsOk (awayClusterGetTemperature aw (v / 100))) := by
  have hp2 : (c "operation_preset").getD 1 = p := by
    simpa [presetSchedule] using hp
  refine ⟨?_, ?_, ?_⟩
  · intro hmem
    rcases hmem with h | h | h <;> subst h <;>
      simp [maxsmartMapAttribute, maxsmartDirectMapping, String.reduceEq, hp2,
        exceptIsOk, presetAway, presetSchedule, presetManual, presetBoost,
        presetComfort, presetEco, presetComplex]
  · intro hmem
    rcases hmem with h | h | h <;> subst h <;>
      simp [maxsmartMapAttribute, maxsmartDirectMapping, String.reduceEq, hp2,
        exceptIsOk, presetAway, presetSchedule, presetManual, presetBoost]
  · intro hmem
    subst hmem
    cases hres : awayClusterGetTemperature aw (v / 100) with
    | error e =>
      simp [maxsmartMapAttribute, maxsmartDirectMapping, String.reduceEq, hp2,
        exceptIsOk, presetAway, presetSchedule, presetManual, presetBoost, hres]
    | ok data =>
      simp [maxsmartMapAttribute, maxsmartDirectMapping, String.reduceEq, hp2,
        exceptIsOk, presetAway, presetSchedule, presetManual, presetBoost, hres]

/-- Witness for C7 (amended): the no-exception side at the concrete Manual
cache, the exception side at the concrete Comfort cache, and the away side at
the concrete Away cache with the fresh-device away state. -/
theorem maxsmart_map_attribute_totality_c7_witness :
    exceptIsOk (maxsmartMapAttribute manualPresetCache unsetAway
      "occupied_heating_setpoint" 2000) = true ∧
    exceptIsOk (maxsmartMapAttribute comfortPresetCache unsetAway
      "occupied_heating_setpoint" 1500) = false ∧
    exceptIsOk (maxsmartMapAttribute awayPresetCache unsetAway
      "occupied_heating_setpoint" 1800) =
      exceptIsOk (awayClusterGetTemperature unsetAway (1800 / 100)) :=
  ⟨(maxsmart_map_attribute_totality_c7 manualPresetCache unsetAway 2000
      presetManual (by simp [manualPresetCache, String.reduceEq])).2.1
      (Or.inr (Or.inl rfl)),
   (maxsmart_map_attribute_totality_c7 comfortPresetCache unsetAway 1500
      presetComfort (by simp [comfortPresetCache, String.reduceEq])).1
      (Or.inl rfl),
   (maxsmart_map_attribute_totality_c7 awayPresetCache unsetAway 1800
      presetAway (by simp [awayPresetCache, String.reduceEq])).2.2 rfl⟩

/-- C8: for the two direct-mapped Avatto temperature attributes (0x0218 and
0x0210) the raw value is always cached, a temperature_change event is
published exactly when the raw value is below 500, and the published value is
raw times ten when the manufacturer-string condition holds (the two listed
SKUs, plus four further SKUs for the current-temperature attribute only) and
raw times one hundred otherwise. -/
theorem avatto_range_filter_c8 (mfr : String) (attrid : ℕ) (v : ℤ) (c : SCache)
    (hid : attrid = AVATTO_TEMPERATURE_ATTR ∨ attrid = AVATTO_TARGET_TEMP_ATTR) :
    (avattoUpdateAttribute mfr attrid v c).1 attrid = some v ∧
    (500 ≤ v → (avattoUpdateAttribute mfr attrid v c).2 = []) ∧
    (v < 500 → (avattoUpdateAttribute mfr attrid v c).2 =
      [⟨"thermostat_bus", "temperature_change",
        [.str (if attrid = AVATTO_TEMPERATURE_ATTR then "local_temperature"
               else "occupied_heating_setpoint"),
         .num (((if avattoScale10 mfr attrid then avattoTimesTen v
                 else avattoTimesHundred v) : ℤ) : ℚ)]⟩]) := by
  rcases hid with h | h <;> subst h <;> refine ⟨?_, ?_, ?_⟩
  · simp [avattoUpdateAttribute, sStore]
  · intro h5
    simp [avattoUpdateAttribute, avattoDirectMapped, AVATTO_TEMPERATURE_ATTR,
      AVATTO_TARGET_TEMP_ATTR, AVATTO_TEMP_CALIBRATION_ATTR,
      AVATTO_CHILD_LOCK_ATTR, AVATTO_MODE_ATTR, AVATTO_HEAT_STATE_ATTR,
      BEOK_HEAT_STATE_ATTR, AVATTO_SYSTEM_MODE_ATTR, not_lt.mpr h5]
  · intro h5
    by_cases hsk : avattoScale10 mfr AVATTO_TEMPERATURE_ATTR <;>
      simp only [Bool.not_eq_true, AVATTO_TEMPERATURE_ATTR, AVATTO_TARGET_TEMP_ATTR] at hsk <;>
      simp [avattoUpdateAttribute, avattoDirectMapped, AVATTO_TEMPERATURE_ATTR,
        AVATTO_TARGET_TEMP_ATTR, AVATTO_TEMP_CALIBRATION_ATTR,
        AVATTO_CHILD_LOCK_ATTR, AVATTO_MODE_ATTR, AVATTO_HEAT_STATE_ATTR,
        BEOK_HEAT_STATE_ATTR, AVATTO_SYSTEM_MODE_ATTR, h5, hsk]
  · simp [avattoUpdateAttribute, sStore]
  · intro h5
    simp [avattoUpdateAttribute, avattoDirectMapped, AVATTO_TEMPERATURE_ATTR,
      AVATTO_TARGET_TEMP_ATTR, AVATTO_TEMP_CALIBRATION_ATTR,
      AVATTO_CHILD_LOCK_ATTR, AVATTO_MODE_ATTR, AVATTO_HEAT_STATE_ATTR,
      BEOK_HEAT_STATE_ATTR, AVATTO_SYSTEM_MODE_ATTR, not_lt.mpr h5]
  · intro h5
    by_cases hsk : avattoScale10 mfr AVATTO_TARGET_TEMP_ATTR <;>
      simp only [Bool.not_eq_true, AVATTO_TEMPERATURE_ATTR, AVATTO_TARGET_TEMP_ATTR] at hsk <;>
      simp [avattoUpdateAttribute, avattoDirectMapped, AVATTO_TEMPERATURE_ATTR,
        AVATTO_TARGET_TEMP_ATTR, AVATTO_TEMP_CALIBRATION_ATTR,
        AVATTO_CHILD_LOCK_ATTR, AVATTO_MODE_ATTR, AVATTO_HEAT_STATE_ATTR,
        BEOK_HEAT_STATE_ATTR, AVATTO_SYSTEM_MODE_ATTR, h5, hsk]

/-- Witness for C8: for the listed SKU _TZE200_2ekuz3dz and current
temperature 250 (below 500), the event carries 2500 = 250 * 10. -/
theorem avatto_range_filter_c8_witness :
    (avattoUpdateAttribute "_TZE200_2ekuz3dz" AVATTO_TEMPERATURE_ATTR 250
      (fun _ => none)).2 =
      [⟨"thermostat_bus", "temperature_change",
        [.str (if AVATTO_TEMPERATURE_ATTR = AVATTO_TEMPERATURE_ATTR
               then "local_temperature" else "occupied_heating_setpoint"),
         .num (((if avattoScale10 "_TZE200_2ekuz3dz" AVATTO_TEMPERATURE_ATTR
                 then avattoTimesTen 250 else avattoTimesHundred 250) : ℤ) : ℚ)]⟩] :=
  (avatto_range_filter_c8 "_TZE200_2ekuz3dz" AVATTO_TEMPERATURE_ATTR 250
    (fun _ => none) (Or.inl rfl)).2.2 (by decide)

/-- C9: on the Saswell climate-state computation with system_mode cached as
Heat, a room-temperature report with no cached occupied_heating_setpoint makes
the handler raise TypeError inside the bus dispatch; the dispatched outcome is
a logged error message with no exception propagated and no state_change event
published. -/
theorem saswell_missing_cache_c9 (c : SThermo) (v : ℤ)
    (hheat : c "system_mode" = some systemModeHeat)
    (hmiss : c "occupied_heating_setpoint" = none) :
    saswellHassClimateStateChange c SASWELL_ROOM_TEMP_ATTR v =
      .error "TypeError: unsupported operand type for NoneType" ∧
    busDispatchLogged (saswellHassClimateStateChange c SASWELL_ROOM_TEMP_ATTR v) =
      ([], some "TypeError: unsupported operand type for NoneType") := by
  have h1 : saswellHassClimateStateChange c SASWELL_ROOM_TEMP_ATTR v =
      .error "TypeError: unsupported operand type for NoneType" := by
    simp [saswellHassClimateStateChange, hheat, hmiss]
  exact ⟨h1, by rw [h1]; rfl⟩

/-- Concrete Saswell synthetic-thermostat cache holding only system_mode
Heat. -/
def heatOnlyCache : SThermo :=
  fun k => if k = "system_mode" then some systemModeHeat else none

/-- Witness for C9 at the concrete Heat-only cache. -/
theorem saswell_missing_cache_c9_witness :
    saswellHassClimateStateChange heatOnlyCache SASWELL_ROOM_TEMP_ATTR 202 =
      .error "TypeError: unsupported operand type for NoneType" ∧
    busDispatchLogged (saswellHassClimateStateChange heatOnlyCache
      SASWELL_ROOM_TEMP_ATTR 202) =
      ([], some "TypeError: unsupported operand type for NoneType") :=
  saswell_missing_cache_c9 heatOnlyCache 202
    (by simp [heatOnlyCache])
    (by simp [heatOnlyCache, String.reduceEq])

/-- Counterexample to C10: the raw battery value 130 is routed through the
round branch, and the published battery_change value is
round((130 - 70) * 1.67, 1) = 100.2, which lies outside [0, 100]. -/
theorem maxsmart_battery_overflow_c10_counterexample :
    maxsmartBatteryPercent 130 = 1002/10 ∧
    ¬(maxsmartBatteryPercent 130 ≤ 100) := by
  constructor <;> norm_num [maxsmartBatteryPercent, pythonRound1, pythonRound]

/-- C10 (amended): for every raw battery value the published battery_change
value lies in [0, 100.2]; it exceeds 100 only at the single raw value 130,
and lies in [0, 100] for every other raw value. -/
theorem maxsmart_battery_bounds_c10 (v : ℤ) :
    0 ≤ maxsmartBatteryPercent (v : ℚ) ∧
    maxsmartBatteryPercent (v : ℚ) ≤ 1002/10 ∧
    (v ≠ 130 → maxsmartBatteryPercent (v : ℚ) ≤ 100) := by
  by_cases h1 : (v : ℚ) > 130
  · simp only [maxsmartBatteryPercent, if_pos h1]
    norm_num
  · by_cases h2 : (v : ℚ) < 70
    · simp only [maxsmartBatteryPercent, if_neg h1, if_pos h2]
      norm_num
    · simp only [maxsmartBatteryPercent, if_neg h1, if_neg h2, pythonRound1]
      push_neg at h1 h2
      have hle := pythonRound_le (((v : ℚ) - 70) * (167/100) * 10)
      have hge := le_pythonRound (((v : ℚ) - 70) * (167/100) * 10)
      have hrlow : (0 : ℤ) ≤ pythonRound (((v : ℚ) - 70) * (167/100) * 10) := by
        have hq0 : (0 : ℚ) ≤ ((v : ℚ) - 70) * (167/100) * 10 := by nlinarith
        have hcast : (-1 : ℚ) < (pythonRound (((v : ℚ) - 70) * (167/100) * 10) : ℚ) := by
          linarith
        have : (-1 : ℤ) < pythonRound (((v : ℚ) - 70) * (167/100) * 10) := by
          exact_mod_cast hcast
        omega
      have hrlowq : (0 : ℚ) ≤ (pythonRound (((v : ℚ) - 70) * (167/100) * 10) : ℚ) := by
        exact_mod_cast hrlow
      refine ⟨by linarith, ?_, ?_⟩
      · have hqu : ((v : ℚ) - 70) * (167/100) * 10 ≤ 1002 := by nlinarith
        have hcast : (pythonRound (((v : ℚ) - 70) * (167/100) * 10) : ℚ) < 1003 := by
          linarith
        have hint : pythonRound (((v : ℚ) - 70) * (167/100) * 10) < 1003 := by
          exact_mod_cast hcast
        have : (pythonRound (((v : ℚ) - 70) * (167/100) * 10) : ℚ) ≤ 1002 := by
          exact_mod_cast Int.lt_add_one_iff.mp hint
        linarith
      · intro hne
        have hv130 : v ≤ 130 := by exact_mod_cast h1
        have hv129 : v ≤ 129 := by omega
        have hv129q : (v : ℚ) ≤ 129 := by exact_mod_cast hv129
        have hqu : ((v : ℚ) - 70) * (167/100) * 10 ≤ 9853/10 := by nlinarith
        have hcast : (pythonRound (((v : ℚ) - 70) * (167/100) * 10) : ℚ) < 986 := by
          linarith
        have hint : pythonRound (((v : ℚ) - 70) * (167/100) * 10) < 986 := by
          exact_mod_cast hcast
        have : (pythonRound (((v : ℚ) - 70) * (167/100) * 10) : ℚ) ≤ 985 := by
          exact_mod_cast Int.lt_add_one_iff.mp hint
        linarith

/-- Witness for C10 (amended) at the concrete raw battery value 100. -/
theorem maxsmart_battery_bounds_c10_witness :
    0 ≤ maxsmartBatteryPercent ((100 : ℤ) : ℚ) ∧
    maxsmartBatteryPercent ((100 : ℤ) : ℚ) ≤ 1002/10 ∧
    maxsmartBatteryPercent ((100 : ℤ) : ℚ) ≤ 100 :=
  ⟨(maxsmart_battery_bounds_c10 100).1,
   (maxsmart_battery_bounds_c10 100).2.1,
   (maxsmart_battery_bounds_c10 100).2.2 (by decide)⟩
